import Mathlib

set_option maxRecDepth 4096

/-!
Shallow embedding of the job-matching pipeline (filters.py,
rule_based_matcher.py, llm_batch_matcher.py, llm_scraper.py and the
orchestration fragment of new.py), together with theorems settling the
spec claims about it.  Python strings are modelled as Lean `String`,
Python floats as `ℚ`, Python dicts keyed by job_id as functions
`String → Option MatchResult`, and fallible calls as `Except`/explicit
outcome parameters.
-/

namespace JobPipeline

/-- ASCII word characters, as in the `\w` / `\b` classes of Python `re`. -/
def isWordChar (c : Char) : Bool := c.isAlphanum || c == '_'

/-- Whitespace characters matched by Python regex `\s` (ASCII range). -/
def isSpaceChar (c : Char) : Bool :=
  c == ' ' || c == '\t' || c == '\n' || c == '\r' || c == '\x0b' || c == '\x0c'

/-- `leadsWith pat text` : `pat` is an initial segment of `text`. -/
def leadsWith : List Char → List Char → Bool
  | [], _ => true
  | _ :: _, [] => false
  | p :: ps, t :: ts => p == t && leadsWith ps ts

/-- `containsSeq pat text` : `pat` occurs contiguously in `text`
(Python `pat in text` on strings). -/
def containsSeq (pat : List Char) : List Char → Bool
  | [] => leadsWith pat []
  | t :: ts => leadsWith pat (t :: ts) || containsSeq pat ts

/-- Python `pat in hay` for strings. -/
def strContains (hay pat : String) : Bool := containsSeq pat.data hay.data

/-- Python `str.lower` (per-character, as in CPython for ASCII).
`String.toLower` itself is built on `String.mapAux`, which the kernel
cannot reduce, so the embedding uses this equivalent map form. -/
def strToLower (s : String) : String := String.mk (s.data.map Char.toLower)

/-- Python `repr`-style rendering of a list of strings, used in the
pre-filter audit `reason` strings. -/
def pyReprList (l : List String) : String :=
  "[" ++ String.intercalate ", " (l.map (fun s => "\x27" ++ s ++ "\x27")) ++ "]"

/-- Python `str` of a bool. -/
def pyStrBool (b : Bool) : String := if b then "True" else "False"

/-! ### filters.py -/

/-- Job title keywords (filters.py). -/
def JOB_TITLE_KEYWORDS : List String :=
  ["data engineer", "analytics engineer", "data engineering",
   "analytics engineering", "etl engineer", "ml engineer"]

/-- Must-have skill keywords (filters.py). -/
def REQUIRED_SKILLS : List String :=
  ["databricks", "pyspark", "spark", "sql", "python", "etl", "aws", "gcp", "azure"]

/-- Minimum skill matches required (filters.py). -/
def MIN_SKILL_MATCHES : Nat := 3

/-- `check_keyword_match` (filters.py): case-insensitive substring
keyword matching; returns `(match_found, matched_keywords)`.
The `if not text` guard returns `(False, [])` for the empty string. -/
def check_keyword_match (text : String) (keywords : List String) : Bool × List String :=
  if text = "" then (false, [])
  else
    let textLower := strToLower text
    let matched := keywords.filter (fun k => strContains textLower (strToLower k))
    (decide (0 < matched.length), matched)

/-- A job as consumed by the pipeline: the dict fields the filter,
matcher and orchestrator read (`job.get('job_title','')` etc.). -/
structure Job where
  job_id : String
  job_title : String
  description : String
  deriving Repr, DecidableEq

/-- Result dict of `pre_filter_job` (filters.py). -/
structure FilterResult where
  job_id : String
  job_title : String
  passed : Bool
  title_match : Bool
  skill_matches : List String
  skill_count : Nat
  exclude_match : Bool
  reason : String
  deriving Repr, DecidableEq

/-- `pre_filter_job` (filters.py): title-keyword match OR at least
`MIN_SKILL_MATCHES` required-skill keywords in title+description. -/
def pre_filter_job (job : Job) : FilterResult :=
  let combined_text := job.job_title ++ " " ++ job.description
  let tm := check_keyword_match job.job_title JOB_TITLE_KEYWORDS
  let sm := check_keyword_match combined_text REQUIRED_SKILLS
  let pass := tm.1 || decide (MIN_SKILL_MATCHES ≤ sm.2.length)
  { job_id := job.job_id
    job_title := job.job_title
    passed := pass
    title_match := tm.1
    skill_matches := sm.2
    skill_count := sm.2.length
    exclude_match := false
    reason :=
      if pass then "Title: " ++ pyStrBool tm.1 ++ ", Skills: " ++ pyReprList sm.2
      else "Insufficient matches. Skills: " ++ pyReprList sm.2 }

/-- `batch_pre_filter_jobs` (filters.py): partition into
`(passed_jobs, rejected_jobs)`.  The filter/rejection metadata attached
to the job dicts is audit-only and not modelled on `Job`. -/
def batch_pre_filter_jobs (jobs : List Job) : List Job × List Job :=
  (jobs.filter (fun j => (pre_filter_job j).passed),
   jobs.filter (fun j => !(pre_filter_job j).passed))

/-! ### rule_based_matcher.py — vocabularies -/

/-- Skill taxonomy (rule_based_matcher.py), in dict insertion order. -/
def DATA_ENGINEERING_SKILLS : List (String × List String) :=
  [("core", ["sql", "python", "etl", "data pipeline", "data warehousing", "data modeling"]),
   ("big_data", ["spark", "pyspark", "hadoop", "kafka", "airflow", "databricks"]),
   ("cloud", ["aws", "azure", "gcp", "snowflake", "s3", "redshift", "bigquery"]),
   ("databases", ["postgresql", "mysql", "mongodb", "redis", "cassandra", "dynamodb"]),
   ("tools", ["docker", "kubernetes", "git", "jenkins", "terraform", "dbt"]),
   ("languages", ["java", "scala", "r", "bash", "shell scripting"]),
   ("ml", ["machine learning", "tensorflow", "scikit-learn", "pandas", "numpy"])]

/-- `ALL_SKILLS`: the flattened taxonomy.  The source stores it as a
Python set; we keep a duplicate-free list (membership is what matters). -/
def ALL_SKILLS : List String :=
  ((DATA_ENGINEERING_SKILLS.map Prod.snd).flatten).dedup

/-- Experience level keywords (rule_based_matcher.py), dict order. -/
def EXPERIENCE_KEYWORDS : List (String × List String) :=
  [("entry", ["junior", "entry level", "0-2 years", "graduate", "fresher", "associate"]),
   ("mid", ["mid level", "2-5 years", "3-5 years", "intermediate", "engineer ii"]),
   ("senior", ["senior", "5+ years", "7+ years", "lead", "principal", "staff", "architect"]),
   ("expert", ["expert", "10+ years", "director", "head of", "vp", "chief"])]

/-- Negative signals (red flags) (rule_based_matcher.py). -/
def RED_FLAGS : List String :=
  ["extensive travel required", "on-call 24/7", "must relocate",
   "commission only", "unpaid internship", "mandatory weekends"]

/-! ### rule_based_matcher.py — extractors -/

/-- Zero-width `\b` of Python `re`: the word-char status of the two
neighbouring positions differs (positions outside the string count as
non-word). -/
def boundaryOK (l r : Option Char) : Bool :=
  (match l with | some c => isWordChar c | none => false)
    != (match r with | some c => isWordChar c | none => false)

/-- Match of the pattern `\b` ++ pat ++ `\b` at the current text
position, with `prev` the character just before that position. -/
def matchSkillAt (prev : Option Char) (pat text : List Char) : Bool :=
  boundaryOK prev text.head? && leadsWith pat text
    && boundaryOK pat.getLast? (text.drop pat.length).head?

/-- `re.search` of `\b` ++ pat ++ `\b` over the text: try every
position, tracking the previous character for the left boundary. -/
def wordSearch (pat : List Char) : Option Char → List Char → Bool
  | prev, [] => matchSkillAt prev pat []
  | prev, t :: ts => matchSkillAt prev pat (t :: ts) || wordSearch pat (some t) ts

/-- Stable insertion keeping longer strings first — models Python
`sorted(known_skills, key=len, reverse=True)`. -/
def insertByLenDesc (s : String) : List String → List String
  | [] => [s]
  | t :: ts => if t.length ≤ s.length then s :: t :: ts else t :: insertByLenDesc s ts

/-- Sort by length, longest first (stable). -/
def sortByLenDesc (l : List String) : List String := l.foldr insertByLenDesc []

/-- `extract_skills_from_text` (rule_based_matcher.py): whole-word,
case-insensitive vocabulary matching.  The source's final
`list(set(found_skills))` has arbitrary set order; we keep the scan
order, deduplicated — the set of skills is what is determined. -/
def extract_skills_from_text (text : String) (known_skills : List String) : List String :=
  if text = "" then []
  else
    let text_lower := strToLower text
    let found := (sortByLenDesc known_skills).filter
      (fun sk => wordSearch (strToLower sk).data none text_lower.data)
    found.dedup

/-- `calculate_skill_match_score` (rule_based_matcher.py):
`(match_percentage, matched_skills, missing_skills)` computed on the
lower-cased de-duplicated skill sets; neutral 50 when the job yields no
skills. -/
def calculate_skill_match_score (resume_skills job_skills : List String) :
    ℚ × List String × List String :=
  if job_skills = [] then (50, [], [])
  else
    let r := (resume_skills.map strToLower).dedup
    let j := (job_skills.map strToLower).dedup
    let matched := j.filter (fun s => r.contains s)
    let missing := j.filter (fun s => !(r.contains s))
    ((matched.length : ℚ) / (j.length : ℚ) * 100, matched, missing)

/-- `detect_experience_level` (rule_based_matcher.py): first level (in
dict order) one of whose keywords occurs in the text; default "mid". -/
def detect_experience_level (text : String) : String :=
  let text_lower := strToLower text
  match EXPERIENCE_KEYWORDS.find? (fun p => p.2.any (fun k => strContains text_lower k)) with
  | some p => p.1
  | none => "mid"

/-- Maximal digit run at the head of the text: `(digits, rest)`. -/
def takeDigits : List Char → List Char × List Char
  | [] => ([], [])
  | c :: cs =>
    if c.isDigit then
      let p := takeDigits cs
      (c :: p.1, p.2)
    else ([], c :: cs)

/-- Numeric value of a digit run (Python `int` on the captured group). -/
def digitsToNat (ds : List Char) : Nat :=
  ds.foldl (fun n c => n * 10 + (c.toNat - 48)) 0

/-- `\s*`: drop leading regex whitespace. -/
def dropSpaces : List Char → List Char
  | [] => []
  | c :: cs => if isSpaceChar c then dropSpaces cs else c :: cs

/-- `\s+`: at least one whitespace character, then drop the run. -/
def dropSpaces1 : List Char → Option (List Char)
  | [] => none
  | c :: cs => if isSpaceChar c then some (dropSpaces cs) else none

/-- Pattern `(\d+)\+?\s*years` at the current position: returns the
captured number and the text after the match. -/
def matchP1 (cs : List Char) : Option (Nat × List Char) :=
  let p := takeDigits cs
  if p.1 = [] then none
  else
    let r2 := match p.2 with
      | '+' :: t => t
      | r => r
    let r3 := dropSpaces r2
    if leadsWith "years".data r3 then some (digitsToNat p.1, r3.drop 5) else none

/-- Pattern `(\d+)-\d+\s*years` at the current position. -/
def matchP2 (cs : List Char) : Option (Nat × List Char) :=
  let p := takeDigits cs
  if p.1 = [] then none
  else
    match p.2 with
    | '-' :: r2 =>
      let q := takeDigits r2
      if q.1 = [] then none
      else
        let r3 := dropSpaces q.2
        if leadsWith "years".data r3 then some (digitsToNat p.1, r3.drop 5) else none
    | _ => none

/-- Pattern `minimum\s+(\d+)\s*years` at the current position. -/
def matchP3 (cs : List Char) : Option (Nat × List Char) :=
  if leadsWith "minimum".data cs then
    match dropSpaces1 (cs.drop 7) with
    | none => none
    | some r2 =>
      let p := takeDigits r2
      if p.1 = [] then none
      else
        let r3 := dropSpaces p.2
        if leadsWith "years".data r3 then some (digitsToNat p.1, r3.drop 5) else none
  else none

/-- Pattern `at least\s+(\d+)\s*years` at the current position. -/
def matchP4 (cs : List Char) : Option (Nat × List Char) :=
  if leadsWith "at least".data cs then
    match dropSpaces1 (cs.drop 8) with
    | none => none
    | some r2 =>
      let p := takeDigits r2
      if p.1 = [] then none
      else
        let r3 := dropSpaces p.2
        if leadsWith "years".data r3 then some (digitsToNat p.1, r3.drop 5) else none
  else none

/-- `re.findall` scan: try the pattern at every position, skip past the
consumed text on a hit.  Every step shortens the text, so a fuel equal
to the text length never runs out. -/
def findAllP (p : List Char → Option (Nat × List Char)) : Nat → List Char → List Nat
  | 0, _ => []
  | _, [] => []
  | fuel + 1, c :: cs =>
    match p (c :: cs) with
    | some pr => pr.1 :: findAllP p fuel pr.2
    | none => findAllP p fuel cs

/-- The `years` list collected by `extract_years_of_experience`: the
captures of its four patterns over the lower-cased text, in pattern
order. -/
def year_matches (text : String) : List Nat :=
  let tl := (strToLower text).data
  findAllP matchP1 tl.length tl ++ findAllP matchP2 tl.length tl
    ++ findAllP matchP3 tl.length tl ++ findAllP matchP4 tl.length tl

/-- `extract_years_of_experience` (rule_based_matcher.py):
`max(years) if years else 0`. -/
def extract_years_of_experience (text : String) : Nat :=
  match year_matches text with
  | [] => 0
  | y :: ys => ys.foldl max y

/-- The source annotates this function's argument `text: str`, but the
spec also discusses `None` input.  In Python, `None.lower()` raises
`AttributeError`; the guard-free line 127 makes the `none` case an
error, while `extract_skills_from_text`'s `if not text` guard accepts
`None`.  This wrapper models the dynamic behaviour on `Option String`. -/
def extract_years_of_experience_py (text : Option String) : Except String Nat :=
  match text with
  | none => Except.error "AttributeError: NoneType object has no attribute lower"
  | some s => Except.ok (extract_years_of_experience s)

/-- `extract_skills_from_text` on a possibly-`None` text: the
`if not text` guard returns `[]` for both `None` and `""`. -/
def extract_skills_from_text_py (text : Option String) (known_skills : List String) :
    List String :=
  match text with
  | none => []
  | some s => extract_skills_from_text s known_skills

/-- `detect_red_flags` (rule_based_matcher.py). -/
def detect_red_flags (text : String) : List String :=
  RED_FLAGS.filter (fun flag => strContains (strToLower text) flag)

/-- `calculate_experience_score` (rule_based_matcher.py): tier default
when no explicit years, then 100/80/60/40 banding. -/
def calculate_experience_score (resume_years : ℚ) (required_years : Nat)
    (job_level : String) : ℚ :=
  let req : Nat :=
    if required_years = 0 then
      if job_level = "entry" then 1
      else if job_level = "mid" then 3
      else if job_level = "senior" then 6
      else if job_level = "expert" then 10
      else 3
    else required_years
  if (req : ℚ) ≤ resume_years then 100
  else if (req : ℚ) * 0.7 ≤ resume_years then 80
  else if (req : ℚ) * 0.5 ≤ resume_years then 60
  else 40

/-- `extract_key_technologies` (rule_based_matcher.py): skills of the
description, re-listed in category priority order, top 8. -/
def extract_key_technologies (job_description : String) : List String :=
  let skills := extract_skills_from_text job_description ALL_SKILLS
  let prioritized :=
    ((["big_data", "cloud", "core", "databases", "tools"].map (fun cat =>
        let category_skills :=
          ((DATA_ENGINEERING_SKILLS.find? (fun p => p.1 == cat)).map Prod.snd).getD []
        skills.filter (fun s => category_skills.contains (strToLower s)))).flatten)
  prioritized.take 8

/-- `identify_transferable_skills` (rule_based_matcher.py). -/
def identify_transferable_skills (resume_skills job_skills : List String) : List String :=
  let rl := resume_skills.map strToLower
  let jl := job_skills.map strToLower
  let skill_families : List (List String) :=
    [["python", "java", "scala", "r"],
     ["sql", "postgresql", "mysql", "oracle"],
     ["aws", "azure", "gcp"],
     ["spark", "pyspark", "hadoop"],
     ["docker", "kubernetes", "containers"]]
  let transferable :=
    (skill_families.map (fun family =>
      let resume_in_family := rl.filter (fun s => family.contains s)
      let job_in_family := jl.filter (fun s => family.contains s)
      if !resume_in_family.isEmpty && !job_in_family.isEmpty then
        resume_in_family.filter (fun s => !(job_in_family.contains s))
      else [])).flatten
  (transferable.dedup).take 5

/-- `generate_strengths` (rule_based_matcher.py).  The source takes a
third `resume_data` argument it never reads; it is omitted here. -/
def generate_strengths (matched_skills : List String) (experience_score : ℚ) :
    List String :=
  let s1 : List String :=
    if 5 ≤ matched_skills.length then
      ["Strong technical match with " ++ toString matched_skills.length ++ " relevant skills"]
    else if 3 ≤ matched_skills.length then
      ["Good skill alignment with " ++ toString matched_skills.length ++ " key technologies"]
    else []
  let s2 : List String :=
    if (80 : ℚ) ≤ experience_score then ["Experience level matches or exceeds requirements"] else []
  let premium_skills := ["databricks", "spark", "airflow", "kafka", "snowflake"]
  let has_premium := matched_skills.filter (fun s => premium_skills.contains (strToLower s))
  let s3 : List String :=
    if !has_premium.isEmpty then
      ["Expertise in high-demand tools: " ++ String.intercalate ", " (has_premium.take 2)]
    else []
  let cloud_skills := matched_skills.filter (fun s => ["aws", "azure", "gcp"].contains (strToLower s))
  let s4 : List String :=
    if !cloud_skills.isEmpty then
      ["Cloud platform experience: " ++ String.intercalate ", " cloud_skills]
    else []
  let strengths := s1 ++ s2 ++ s3 ++ s4
  if strengths = [] then ["Profile shows relevant technical background"] else strengths.take 4

/-- `generate_weaknesses` (rule_based_matcher.py). -/
def generate_weaknesses (missing_skills : List String) (experience_score : ℚ)
    (red_flags : List String) : List String :=
  let w1 : List String :=
    if 3 ≤ missing_skills.length then
      ["Missing " ++ toString missing_skills.length ++ " required skills: "
        ++ String.intercalate ", " (missing_skills.take 3)]
    else if !missing_skills.isEmpty then
      ["Skill gap in: " ++ String.intercalate ", " missing_skills]
    else []
  let w2 : List String :=
    if experience_score < 60 then ["Experience level below requirement"] else []
  let w3 : List String :=
    match red_flags with
    | [] => []
    | f :: _ => ["Potential concerns: " ++ f]
  let weaknesses := w1 ++ w2 ++ w3
  if weaknesses = [] then ["Limited information to assess full fit"] else weaknesses.take 3

/-- `generate_interview_tips` (rule_based_matcher.py). -/
def generate_interview_tips (matched_skills missing_skills : List String) : List String :=
  let t1 : List String :=
    if !matched_skills.isEmpty then
      ["Emphasize experience with " ++ String.intercalate ", " (matched_skills.take 3)]
    else []
  let t2 : List String :=
    if !missing_skills.isEmpty then
      ["Prepare to discuss how you\x27d learn: " ++ String.intercalate ", " (missing_skills.take 2)]
    else []
  (t1 ++ t2 ++ ["Research company\x27s data infrastructure and recent projects"]).take 3

/-! ### rule_based_matcher.py — the matcher -/

/-- Python `round(x, 1)` on exact rationals.  (Python rounds float ties
to even; the two conventions agree except at exact `.x5` ties, which the
claims do not touch.) -/
def roundTo1 (q : ℚ) : ℚ := ((round (q * 10) : ℤ) : ℚ) / 10

/-- Python `int()` truncation toward zero on a rational. -/
def pyInt (q : ℚ) : ℤ := q.num / (q.den : ℤ)

/-- The resume dict as read by `rule_based_match` (`.get` fields with
their defaults). -/
structure Resume where
  all_skills : List String
  skills : List String
  primary_skills : List String
  secondary_skills : List String
  total_experience_years : ℚ
  deriving Repr, DecidableEq

/-- Resume skills resolution of rule_based_matcher.py lines 304-309:
`all_skills` if non-empty, else skills+primary+secondary; dedup. -/
def resume_skills_of (resume : Resume) : List String :=
  let base :=
    if resume.all_skills = [] then
      resume.skills ++ resume.primary_skills ++ resume.secondary_skills
    else resume.all_skills
  base.dedup

structure Scores where
  technical : ℚ
  experience : ℚ
  culture : ℚ
  total : ℚ
  deriving Repr, DecidableEq

structure ParsedJobDetails where
  required_experience_years : Option Nat
  key_technologies : List String
  team_size : Option String
  role_level : Option String
  deriving Repr, DecidableEq

/-- The match-record dict produced by both matcher paths.  The
`matched_at` wall-clock timestamp is I/O and not modelled. -/
structure MatchResult where
  job_id : String
  scores : Scores
  classification : String
  matched_skills : List String
  skill_gaps : List String
  transferable_skills : List String
  strengths : List String
  weaknesses : List String
  recommendation : String
  reasoning : String
  deal_breakers : List String
  interview_tips : List String
  parsed_job_details : ParsedJobDetails
  llm_analysis : Bool
  llm_model : Option String
  fallback_reason : Option String
  deriving Repr, DecidableEq

/-- Job skills extracted from title+description (line 301/312). -/
def job_skills_of (job : Job) : List String :=
  extract_skills_from_text (job.job_title ++ " " ++ job.description) ALL_SKILLS

/-- The `(pct, matched, missing)` triple of lines 315-318. -/
def skill_triple_of (job : Job) (resume : Resume) : ℚ × List String × List String :=
  calculate_skill_match_score (resume_skills_of resume) (job_skills_of job)

/-- Technical score of lines 336-343: the skill match percentage,
+10 capped at 100 when at least 2 critical skills matched. -/
def technical_score_of (job : Job) (resume : Resume) : ℚ :=
  let st := skill_triple_of job resume
  let critical_skills := ["sql", "python", "etl", "data pipeline"]
  let has_critical := st.2.1.filter (fun s => critical_skills.contains (strToLower s))
  if 2 ≤ has_critical.length then min (st.1 + 10) 100 else st.1

/-- Experience score of lines 321-324. -/
def experience_score_of (job : Job) (resume : Resume) : ℚ :=
  calculate_experience_score resume.total_experience_years
    (extract_years_of_experience job.description)
    (detect_experience_level job.description)

/-- Classification/recommendation thresholds of lines 347-359. -/
def base_classification (total : ℚ) : String × String :=
  if 80 ≤ total then ("EXCELLENT", "APPLY")
  else if 65 ≤ total then ("GOOD", "APPLY")
  else if 50 ≤ total then ("FAIR", "CONSIDER")
  else ("POOR", "SKIP")

/-- Red-flag adjustment of lines 361-365. -/
def adjusted_classification (total : ℚ) (red_flags : List String) : String × String :=
  let base := base_classification total
  if red_flags = [] then base
  else (if base.1 = "EXCELLENT" then "GOOD" else base.1, "CONSIDER")

/-- `rule_based_match` (rule_based_matcher.py lines 284-416). -/
def rule_based_match (job : Job) (resume : Resume) : MatchResult :=
  let st := skill_triple_of job resume
  let matched_skills := st.2.1
  let missing_skills := st.2.2
  let required_years := extract_years_of_experience job.description
  let job_level := detect_experience_level job.description
  let experience_score := experience_score_of job resume
  let transferable := identify_transferable_skills (resume_skills_of resume) (job_skills_of job)
  let red_flags := detect_red_flags job.description
  let key_techs := extract_key_technologies job.description
  let technical_score := technical_score_of job resume
  let culture_score : ℚ := 80
  let total_score := technical_score * 0.6 + experience_score * 0.3 + culture_score * 0.1
  let cls := adjusted_classification total_score red_flags
  let reasoning0 :=
    if 70 ≤ total_score then
      "Strong fit: " ++ toString matched_skills.length ++ " matching skills, "
        ++ toString (pyInt experience_score) ++ "% exp match"
    else if 50 ≤ total_score then
      "Moderate fit: " ++ toString matched_skills.length ++ " skills match, consider skill gaps"
    else
      "Weak fit: only " ++ toString matched_skills.length ++ " skills match, significant gaps"
  let reasoning := if 150 < reasoning0.length then reasoning0.take 147 ++ "..." else reasoning0
  { job_id := job.job_id
    scores :=
      { technical := roundTo1 technical_score
        experience := roundTo1 experience_score
        culture := roundTo1 culture_score
        total := roundTo1 total_score }
    classification := cls.1
    matched_skills := matched_skills.take 10
    skill_gaps := missing_skills.take 10
    transferable_skills := transferable
    strengths := generate_strengths matched_skills experience_score
    weaknesses := generate_weaknesses missing_skills experience_score red_flags
    recommendation := cls.2
    reasoning := reasoning
    deal_breakers := red_flags
    interview_tips := generate_interview_tips matched_skills missing_skills
    parsed_job_details :=
      { required_experience_years := if 0 < required_years then some required_years else none
        key_technologies := key_techs
        team_size := none
        role_level := some job_level }
    llm_analysis := false
    llm_model := none
    fallback_reason := some "Rule-based analysis (LLM unavailable)" }

/-! ### rule_based_matcher.py — batch form -/

/-- The Python dicts keyed by job_id are modelled as finite-support
lookup functions. -/
abbrev MatchDict := String → Option MatchResult

def emptyDict : MatchDict := fun _ => none

def dinsert (d : MatchDict) (k : String) (v : MatchResult) : MatchDict :=
  fun q => if q = k then some v else d q

/-- The minimal fallback record of `batch_rule_based_match`'s `except`
branch (lines 441-464): all scores 50, FAIR/CONSIDER, the truncated
error message in `fallback_reason`. -/
def batch_error_fallback (job : Job) (e : String) : MatchResult :=
  { job_id := job.job_id
    scores := { technical := 50, experience := 50, culture := 50, total := 50 }
    classification := "FAIR"
    matched_skills := []
    skill_gaps := []
    transferable_skills := []
    strengths := ["Analysis failed - manual review needed"]
    weaknesses := ["Could not complete automated analysis"]
    recommendation := "CONSIDER"
    reasoning := "Automated analysis encountered errors"
    deal_breakers := []
    interview_tips := ["Review job description manually"]
    parsed_job_details :=
      { required_experience_years := none, key_technologies := [], team_size := none,
        role_level := none }
    llm_analysis := false
    llm_model := none
    fallback_reason := some ("Rule-based analysis error: " ++ e.take 50) }

/-- `batch_rule_based_match` (lines 419-468), with the per-job
`try/except` made explicit: the matcher argument may fail, and a
failure is replaced by `batch_error_fallback` instead of aborting. -/
def batch_rule_based_match_with (matchFn : Job → Resume → Except String MatchResult)
    (jobs : List Job) (resume : Resume) : MatchDict :=
  jobs.foldl (fun results job =>
    dinsert results job.job_id
      (match matchFn job resume with
       | Except.ok m => m
       | Except.error e => batch_error_fallback job e)) emptyDict

/-- The production instance: `rule_based_match` is total in the
embedding, so its `Except` wrapper always succeeds. -/
def batch_rule_based_match (jobs : List Job) (resume : Resume) : MatchDict :=
  batch_rule_based_match_with (fun job r => Except.ok (rule_based_match job r)) jobs resume

/-! ### llm_batch_matcher.py -/

/-- One element of the `results` array of a schema-conforming reasoning
service response.  `job_id` is read with `.get` and may be absent. -/
structure LLMResult where
  job_id : Option String
  scores : Scores
  classification : String
  matched_skills : List String
  skill_gaps : List String
  transferable_skills : List String
  strengths : List String
  weaknesses : List String
  recommendation : String
  reasoning : String
  deal_breakers : List String
  interview_tips : List String
  parsed_job_details : ParsedJobDetails
  deriving Repr, DecidableEq

/-- What the external reasoning-service call can come back as: a
transport/JSON-decode/shape failure (all three `except`/`raise` paths
trigger the same full rule-based fallback), or a parsed `results`
array. -/
inductive LLMOutcome where
  | failure (msg : String)
  | ok (results : List LLMResult)
  deriving Repr, DecidableEq

/-- Lines 249-252: the LLM result dict is stored verbatim, with the
provenance metadata added (`matched_at` timestamp not modelled).  No
field of the response is validated or recomputed. -/
def llm_result_to_match (r : LLMResult) (jid : String) : MatchResult :=
  { job_id := jid
    scores := r.scores
    classification := r.classification
    matched_skills := r.matched_skills
    skill_gaps := r.skill_gaps
    transferable_skills := r.transferable_skills
    strengths := r.strengths
    weaknesses := r.weaknesses
    recommendation := r.recommendation
    reasoning := r.reasoning
    deal_breakers := r.deal_breakers
    interview_tips := r.interview_tips
    parsed_job_details := r.parsed_job_details
    llm_analysis := true
    llm_model := some "openai/gpt-4o-mini"
    fallback_reason := none }

/-- Lines 245-256: map results by job_id, skipping results whose
`job_id` is missing (falsy: `None` or the empty string). -/
def llm_results_map (results : List LLMResult) : MatchDict :=
  results.foldl (fun m r =>
    match r.job_id with
    | some s => if s = "" then m else dinsert m s (llm_result_to_match r s)
    | none => m) emptyDict

/-- `create_fallback_match` (llm_batch_matcher.py lines 287-320). -/
def create_fallback_match (job : Job) (reason : String) : MatchResult :=
  { job_id := job.job_id
    scores := { technical := 60, experience := 60, culture := 60, total := 60 }
    classification := "FAIR"
    matched_skills := []
    skill_gaps := []
    transferable_skills := []
    strengths := ["Fallback analysis - manual review recommended"]
    weaknesses := ["Could not perform automated analysis"]
    recommendation := "CONSIDER"
    reasoning := "Automated analysis unavailable, requires manual review"
    deal_breakers := []
    interview_tips := ["Review job description manually"]
    parsed_job_details :=
      { required_experience_years := none, key_technologies := [], team_size := none,
        role_level := none }
    llm_analysis := false
    llm_model := none
    fallback_reason := some reason }

/-- `batch_match_jobs` (llm_batch_matcher.py lines 193-284), with the
external call's outcome an explicit parameter.  Empty input returns
the empty map; any transport/parse/shape failure falls back to
`batch_rule_based_match` for the whole batch; otherwise input job_ids
missing from the response map are backfilled per job with
`rule_based_match`. -/
def batch_match_jobs (outcome : LLMOutcome) (jobs : List Job) (resume : Resume) :
    MatchDict :=
  if jobs = [] then emptyDict
  else
    match outcome with
    | LLMOutcome.failure _ => batch_rule_based_match jobs resume
    | LLMOutcome.ok results =>
      let results_map := llm_results_map results
      let missing_jobs := jobs.filter (fun j => (results_map j.job_id).isNone)
      missing_jobs.foldl
        (fun m job => dinsert m job.job_id (rule_based_match job resume)) results_map

/-! ### new.py — the orchestration fragment around the match pipeline -/

/-- The slice of a notification document relevant to the claims: which
job it is for, its decision status, and the recorded score. -/
structure NotificationRecord where
  job_id : String
  status : String
  match_score : ℚ
  deriving Repr, DecidableEq

/-- Observable effects of one `scrape_and_match_task` run (new.py
lines 191-421): the pre-filter partition, the dedup result, the set of
jobs handed to the batch matcher, which jobs were sent to Discord, and
the notification documents inserted. -/
structure RunEffects where
  passed_jobs : List Job
  new_jobs : List Job
  already_notified : Nat
  batch_input : List Job
  sends : List String
  notifications_inserted : List NotificationRecord
  deriving Repr, DecidableEq

/-- Per-job decide loop (new.py lines 301-421): look up the batch
result (falling back to `create_fallback_match`), then either the
notify path (score meets threshold, or force-notify) which sends and
records the send status, or the skip path recording
`skipped_low_score`.  `sendFn` abstracts `send_discord_notification`'s
returned status.  Returns `(sent job_ids, inserted records)`. -/
def per_job_decide (sendFn : Job → String) (force : Bool) (minScore : ℚ)
    (match_results : MatchDict) : List Job → List String × List NotificationRecord
  | [] => ([], [])
  | job :: rest =>
    let match_data := (match_results job.job_id).getD
      (create_fallback_match job "Not in batch response")
    let match_score := match_data.scores.total
    let tailRes := per_job_decide sendFn force minScore match_results rest
    if minScore ≤ match_score ∨ force = true then
      (job.job_id :: tailRes.1,
       { job_id := job.job_id, status := sendFn job, match_score := match_score } :: tailRes.2)
    else
      (tailRes.1,
       { job_id := job.job_id, status := "skipped_low_score", match_score := match_score }
         :: tailRes.2)

/-- The run pipeline of `scrape_and_match_task` (new.py lines 191-421)
after a successful scrape, as a pure function.  `notified` is the set
of job_ids already holding a NotificationRecord (the
`notifications_collection.find_one` dedup source), `force` is
FORCE_NOTIFY, `minScore` is MIN_MATCH_SCORE and `outcome` the reasoning
service's behaviour.  Scrape/DB/Discord I/O and the run-summary stats
other than `already_notified` are outside the model; the
jobs-collection insert of lines 236-260 writes a job document and does
not affect these observables.

Note the source iterates `for job in scraped_jobs` (line 230) — not
over `passed_jobs` — when building `truly_new_jobs`. -/
def run_model (sendFn : Job → String) (notified : List String) (force : Bool)
    (minScore : ℚ) (outcome : LLMOutcome) (resume : Resume) (scraped : List Job) :
    RunEffects :=
  if scraped = [] then
    { passed_jobs := [], new_jobs := [], already_notified := 0, batch_input := [],
      sends := [], notifications_inserted := [] }
  else
    let passed := if force then scraped else (batch_pre_filter_jobs scraped).1
    if passed = [] then
      { passed_jobs := passed, new_jobs := [], already_notified := 0, batch_input := [],
        sends := [], notifications_inserted := [] }
    else
      let truly_new := scraped.filter (fun j => !(notified.contains j.job_id) || force)
      let already_count :=
        (scraped.filter (fun j => notified.contains j.job_id && !force)).length
      let match_results :=
        if truly_new.isEmpty then emptyDict else batch_match_jobs outcome truly_new resume
      let batch_input := if truly_new.isEmpty then [] else truly_new
      let pj := per_job_decide sendFn force minScore match_results truly_new
      { passed_jobs := passed, new_jobs := truly_new, already_notified := already_count,
        batch_input := batch_input, sends := pj.1, notifications_inserted := pj.2 }

/-! ### llm_scraper.py — URL canonicalization and job_id -/

/-- The six components of Python's `urllib.parse.urlparse`. -/
structure UrlParts where
  scheme : String
  netloc : String
  path : String
  params : String
  query : String
  fragment : String
  deriving Repr, DecidableEq

/-- Split at the first occurrence of `c`: `(before, some after)` or
`(whole, none)`. -/
def breakAt (c : Char) : List Char → List Char × Option (List Char)
  | [] => ([], none)
  | x :: xs =>
    if x == c then ([], some xs)
    else
      let p := breakAt c xs
      (x :: p.1, p.2)

/-- Characters allowed in a URL scheme after the leading letter. -/
def isSchemeChar (c : Char) : Bool := c.isAlphanum || c == '+' || c == '-' || c == '.'

/-- `_splitparams`: split the path's last segment at its first `;`
(only when a `;` occurs at or after the last `/`). -/
def splitParams (p : List Char) : List Char × List Char :=
  if p.contains ';' then
    if p.contains '/' then
      let revp := p.reverse
      let segRev := revp.takeWhile (fun c => c != '/')
      let hd := (revp.drop segRev.length).reverse
      match breakAt ';' segRev.reverse with
      | (b, some r) => (hd ++ b, r)
      | (b, none) => (hd ++ b, [])
    else
      match breakAt ';' p with
      | (b, some r) => (b, r)
      | (b, none) => (b, [])
  else (p, [])

/-- `urllib.parse.urlparse` for the URL shapes this pipeline handles:
fragment after the first `#`; a scheme when a valid scheme name
precedes `:` (lower-cased, as in Python); a netloc after `//` up to the
next `/`, `?` or `#`; query after the first `?`; path params split per
`_splitparams`. -/
def urlparse (url : String) : UrlParts :=
  let cs := url.data
  let f := breakAt '#' cs
  let frag := (f.2).getD []
  let rest0 := f.1
  let sch := breakAt ':' rest0
  let hasScheme :=
    (sch.2).isSome
      && (match sch.1 with
          | [] => false
          | c :: tailChars => c.isAlpha && tailChars.all isSchemeChar)
  let scheme := if hasScheme then sch.1 else []
  let rest1 := if hasScheme then (sch.2).getD [] else rest0
  let hasNetloc := leadsWith ['/', '/'] rest1
  let afterSlashes := rest1.drop 2
  let netloc :=
    if hasNetloc then afterSlashes.takeWhile (fun c => !(c == '/' || c == '?' || c == '#'))
    else []
  let rest2 :=
    if hasNetloc then afterSlashes.dropWhile (fun c => !(c == '/' || c == '?' || c == '#'))
    else rest1
  let q := breakAt '?' rest2
  let query := (q.2).getD []
  let pp := splitParams q.1
  { scheme := String.mk (scheme.map Char.toLower)
    netloc := String.mk netloc
    path := String.mk pp.1
    params := String.mk pp.2
    query := String.mk query
    fragment := String.mk frag }

/-- The canonical URL of `extract_linkedin_job_id_from_url` /
`get_clean_linkedin_url` (llm_scraper.py): scheme + "://" + netloc +
path, all query parameters dropped. -/
def clean_url_of (u : String) : String :=
  let p := urlparse u
  p.scheme ++ "://" ++ p.netloc ++ p.path

/-- `extract_linkedin_job_id_from_url` (llm_scraper.py lines 26-71):
the MD5 hex digest of the canonical URL.  `hashlib.md5` is an external
library primitive; the embedding abstracts over the digest function, so
every property proved holds uniformly in it.  The function's
`try/except` makes it total; the embedding is total outright. -/
def extract_linkedin_job_id_from_url (md5hex : String → String) (job_url : String) :
    String :=
  md5hex (clean_url_of job_url)

/-! ### Definitions written from the spec's words (for refinement
comparisons against the source-derived definitions above) -/

/-- Spec 4.3 step 6: "Total = 0.6×technical + 0.3×experience +
0.1×culture." -/
def spec_total (technical experience culture : ℚ) : ℚ :=
  0.6 * technical + 0.3 * experience + 0.1 * culture

/-- Spec 4.3 step 7: thresholds ≥80 EXCELLENT, ≥65 GOOD, ≥50 FAIR, else
POOR; red flags downgrade EXCELLENT to GOOD. -/
def spec_classification (total : ℚ) (red_flags : List String) : String :=
  let base :=
    if 80 ≤ total then "EXCELLENT"
    else if 65 ≤ total then "GOOD"
    else if 50 ≤ total then "FAIR"
    else "POOR"
  if red_flags = [] then base
  else if base = "EXCELLENT" then "GOOD" else base

/-- Spec 4.3 step 7: APPLY/APPLY/CONSIDER/SKIP by the same thresholds;
red flags force CONSIDER regardless of score. -/
def spec_recommendation (total : ℚ) (red_flags : List String) : String :=
  if red_flags = [] then
    if 80 ≤ total then "APPLY"
    else if 65 ≤ total then "APPLY"
    else if 50 ≤ total then "CONSIDER"
    else "SKIP"
  else "CONSIDER"

/-- The raw (unrounded) weighted total the matcher computes before
storing its rounded form. -/
def raw_total_of (job : Job) (resume : Resume) : ℚ :=
  technical_score_of job resume * 0.6 + experience_score_of job resume * 0.3 + 80 * 0.1

/-- The MatchResult invariant of spec §3 ("total score is a
deterministic function of the sub-scores and the classification is a
deterministic function of the total score plus deal-breaker flags"),
stated over the stored record: its rounded sub-scores come from raw
sub-scores whose fixed weighted combination, rounded, is the stored
total, and whose classification follows the fixed thresholds. -/
def score_invariant (m : MatchResult) : Prop :=
  ∃ t e c : ℚ,
    m.scores.technical = roundTo1 t ∧
    m.scores.experience = roundTo1 e ∧
    m.scores.culture = roundTo1 c ∧
    m.scores.total = roundTo1 (spec_total t e c) ∧
    m.classification = spec_classification (spec_total t e c) m.deal_breakers ∧
    m.recommendation = spec_recommendation (spec_total t e c) m.deal_breakers

/-! ### Concrete sample data used by witnesses and counterexamples -/

/-- A resume with zero skills and zero experience. -/
def resume0 : Resume :=
  { all_skills := [], skills := [], primary_skills := [], secondary_skills := [],
    total_experience_years := 0 }

/-- A job with an empty description. -/
def jobEmpty : Job := { job_id := "job-empty", job_title := "", description := "" }

/-- The spec 8 scenario job: title "Senior Data Engineer", text
containing python, sql and aws. -/
def jobSDE : Job :=
  { job_id := "sde-1", job_title := "Senior Data Engineer",
    description := "Looking for python, sql, aws experience" }

/-- A job the pre-filter rejects: no title keyword, no required skill. -/
def jobReject : Job :=
  { job_id := "rej-1", job_title := "Senior Accountant",
    description := "bookkeeping and excel reporting" }

/-- A job the pre-filter passes by title keyword. -/
def jobPass : Job :=
  { job_id := "pass-1", job_title := "Data Engineer",
    description := "python sql aws databricks" }

/-- A LinkedIn job URL with `refId`/`trackingId` tracking parameters. -/
def urlA : String :=
  "https://www.linkedin.com/jobs/view/data-engineer-at-acme-4314028712?refId=abc123&trackingId=xyz789"

/-- The same posting URL with different tracking noise. -/
def urlB : String :=
  "https://www.linkedin.com/jobs/view/data-engineer-at-acme-4314028712?trk=public_jobs&position=2"

/-- A schema-conforming reasoning-service result whose total score
disagrees with its own sub-scores and classification: the batch matcher
stores it verbatim. -/
def llmBadResult : LLMResult :=
  { job_id := some "pass-1"
    scores := { technical := 90, experience := 90, culture := 90, total := 17 }
    classification := "EXCELLENT"
    matched_skills := []
    skill_gaps := []
    transferable_skills := []
    strengths := []
    weaknesses := []
    recommendation := "APPLY"
    reasoning := "great"
    deal_breakers := []
    interview_tips := []
    parsed_job_details :=
      { required_experience_years := none, key_technologies := [], team_size := none,
        role_level := none } }

/-! ### Helper lemmas -/

lemma dinsert_self (d : MatchDict) (k : String) (v : MatchResult) :
    dinsert d k v k = some v := by
  simp [dinsert]

lemma dinsert_ne (d : MatchDict) (k : String) (v : MatchResult) (q : String)
    (h : q ≠ k) : dinsert d k v q = d q := by
  simp [dinsert, h]

lemma dinsert_isSome (d : MatchDict) (k : String) (v : MatchResult) (q : String)
    (h : (d q).isSome) : ((dinsert d k v) q).isSome := by
  by_cases hq : q = k
  · simp [dinsert, hq]
  · simpa [dinsert, hq] using h

lemma foldl_dinsert_isSome_mono (g : Job → MatchResult) (jobs : List Job)
    (d0 : MatchDict) (k : String) (h : (d0 k).isSome) :
    ((jobs.foldl (fun d job => dinsert d job.job_id (g job)) d0) k).isSome := by
  induction jobs generalizing d0 with
  | nil => exact h
  | cons x xs ih =>
    simp only [List.foldl_cons]
    exact ih _ (dinsert_isSome d0 x.job_id (g x) k h)

lemma foldl_dinsert_isSome_mem (g : Job → MatchResult) (jobs : List Job)
    (d0 : MatchDict) (a : Job) (ha : a ∈ jobs) :
    ((jobs.foldl (fun d job => dinsert d job.job_id (g job)) d0) a.job_id).isSome := by
  induction jobs generalizing d0 with
  | nil => cases ha
  | cons x xs ih =>
    simp only [List.foldl_cons]
    rcases List.mem_cons.mp ha with h | h
    · subst h
      exact foldl_dinsert_isSome_mono g xs _ a.job_id (by simp [dinsert_self])
    · exact ih _ h

lemma foldl_dinsert_stable (g : Job → MatchResult) (jobs : List Job)
    (d0 : MatchDict) (k : String) (hk : ∀ j ∈ jobs, j.job_id ≠ k) :
    (jobs.foldl (fun d job => dinsert d job.job_id (g job)) d0) k = d0 k := by
  induction jobs generalizing d0 with
  | nil => rfl
  | cons x xs ih =>
    simp only [List.foldl_cons]
    rw [ih (dinsert d0 x.job_id (g x)) (fun j hj => hk j (List.mem_cons_of_mem _ hj))]
    exact dinsert_ne d0 x.job_id (g x) k (fun he => hk x (List.mem_cons_self x xs) he.symm)

lemma foldl_dinsert_mem_eq (g : Job → MatchResult) (jobs : List Job)
    (d0 : MatchDict) (a : Job) (ha : a ∈ jobs)
    (hnd : (jobs.map Job.job_id).Nodup) :
    (jobs.foldl (fun d job => dinsert d job.job_id (g job)) d0) a.job_id = some (g a) := by
  induction jobs generalizing d0 with
  | nil => cases ha
  | cons x xs ih =>
    simp only [List.foldl_cons]
    have hnd' : (xs.map Job.job_id).Nodup := (List.nodup_cons.mp (by simpa using hnd)).2
    rcases List.mem_cons.mp ha with h | h
    · subst h
      have hx : a.job_id ∉ xs.map Job.job_id :=
        (List.nodup_cons.mp (by simpa using hnd)).1
      have hstable : ∀ j ∈ xs, j.job_id ≠ a.job_id := by
        intro j hj he
        exact hx (he ▸ List.mem_map_of_mem Job.job_id hj)
      rw [foldl_dinsert_stable g xs _ a.job_id hstable]
      exact dinsert_self d0 a.job_id (g a)
    · exact ih _ h hnd'

lemma foldl_dinsert_entry (g : Job → MatchResult) (jobs : List Job)
    (d0 : MatchDict) (k : String) (m : MatchResult)
    (h : (jobs.foldl (fun d job => dinsert d job.job_id (g job)) d0) k = some m) :
    (∃ a ∈ jobs, m = g a) ∨ d0 k = some m := by
  induction jobs generalizing d0 with
  | nil => right; exact h
  | cons x xs ih =>
    simp only [List.foldl_cons] at h
    rcases ih _ h with ⟨a, ha, hm⟩ | hd
    · exact Or.inl ⟨a, List.mem_cons_of_mem _ ha, hm⟩
    · by_cases hk : k = x.job_id
      · left
        refine ⟨x, List.mem_cons_self x xs, ?_⟩
        rw [hk, dinsert_self] at hd
        exact (Option.some.inj hd).symm
      · right
        rwa [dinsert_ne _ _ _ _ hk] at hd

lemma llm_results_map_aux (results : List LLMResult) (d0 : MatchDict)
    (hd0 : ∀ k m, d0 k = some m → m.llm_analysis = true) (k : String) (m : MatchResult)
    (h : (results.foldl (fun m r =>
        match r.job_id with
        | some s => if s = "" then m else dinsert m s (llm_result_to_match r s)
        | none => m) d0) k = some m) :
    m.llm_analysis = true := by
  induction results generalizing d0 with
  | nil => exact hd0 k m h
  | cons r rs ih =>
    simp only [List.foldl_cons] at h
    refine ih _ ?_ h
    intro k' m' h'
    cases hr : r.job_id with
    | none =>
      rw [hr] at h'
      have h2 : d0 k' = some m' := h'
      exact hd0 k' m' h2
    | some s =>
      rw [hr] at h'
      have h2 : (if s = "" then d0 else dinsert d0 s (llm_result_to_match r s)) k' = some m' := h'
      by_cases hs : s = ""
      · rw [if_pos hs] at h2
        exact hd0 k' m' h2
      · rw [if_neg hs] at h2
        by_cases hk : k' = s
        · rw [hk, dinsert_self] at h2
          cases h2
          rfl
        · rw [dinsert_ne _ _ _ _ hk] at h2
          exact hd0 k' m' h2

/-- Every entry of the parsed-response map has `llm_analysis = true`. -/
lemma llm_results_map_llm (results : List LLMResult) (k : String) (m : MatchResult)
    (h : llm_results_map results k = some m) : m.llm_analysis = true :=
  llm_results_map_aux results emptyDict
    (by intro k' m' h'; simp [emptyDict] at h') k m (by simpa [llm_results_map] using h)

/-! Rounding bounds -/

lemma roundTo1_le_add (x : ℚ) : roundTo1 x ≤ x + 1/20 := by
  have h := Int.floor_le (x * 10 + 1/2)
  rw [roundTo1, round_eq, div_le_iff (by norm_num : (0:ℚ) < 10)]
  linarith

lemma sub_lt_roundTo1 (x : ℚ) : x - 1/20 < roundTo1 x := by
  have h := Int.lt_floor_add_one (x * 10 + 1/2)
  rw [roundTo1, round_eq, lt_div_iff (by norm_num : (0:ℚ) < 10)]
  linarith

lemma roundTo1_bounds (x : ℚ) (h0 : 0 ≤ x) (h1 : x ≤ 100) :
    0 ≤ roundTo1 x ∧ roundTo1 x ≤ 100 := by
  constructor
  · have hc : (0:ℤ) ≤ round (x * 10) := by
      rw [round_eq]
      exact Int.le_floor.mpr (by push_cast; linarith)
    rw [roundTo1]
    exact div_nonneg (by exact_mod_cast hc) (by norm_num)
  · have hc : round (x * 10) ≤ 1000 := by
      rw [round_eq]
      have h2 : (⌊x * 10 + 1/2⌋ : ℤ) < 1001 := Int.floor_lt.mpr (by push_cast; linarith)
      omega
    rw [roundTo1, div_le_iff (by norm_num : (0:ℚ) < 10)]
    calc ((round (x * 10) : ℤ) : ℚ) ≤ 1000 := by exact_mod_cast hc
    _ = 100 * 10 := by norm_num

/-! Python `max` over a nonempty list -/

lemma mem_foldl_max (ys : List Nat) (y : Nat) : ys.foldl max y ∈ y :: ys := by
  induction ys generalizing y with
  | nil => simp
  | cons c cs ih =>
    simp only [List.foldl_cons]
    rcases List.mem_cons.mp (ih (max y c)) with h1 | h1
    · rcases max_choice y c with h2 | h2 <;> rw [h1, h2] <;> simp
    · simp [h1]

lemma le_foldl_max (ys : List Nat) (y : Nat) : y ≤ ys.foldl max y := by
  induction ys generalizing y with
  | nil => exact Nat.le_refl y
  | cons c cs ih => exact le_trans (Nat.le_max_left y c) (ih (max y c))

lemma foldl_max_le_of_mem (ys : List Nat) (y z : Nat) (hz : z ∈ ys) :
    z ≤ ys.foldl max y := by
  induction ys generalizing y with
  | nil => cases hz
  | cons c cs ih =>
    simp only [List.foldl_cons]
    rcases List.mem_cons.mp hz with h | h
    · subst h
      exact le_trans (Nat.le_max_right y z) (le_foldl_max cs _)
    · exact ih _ h

/-! Score bounds -/

lemma skill_pct_bounds (rs js : List String) :
    0 ≤ (calculate_skill_match_score rs js).1
      ∧ (calculate_skill_match_score rs js).1 ≤ 100 := by
  simp only [calculate_skill_match_score]
  by_cases h : js = []
  · rw [if_pos h]
    norm_num
  · rw [if_neg h]
    simp only
    have hjne : (js.map strToLower).dedup ≠ [] := by
      intro hnil
      exact h (List.map_eq_nil_iff.mp ((List.dedup_eq_nil _).mp hnil))
    have hlen : 0 < (js.map strToLower).dedup.length := List.length_pos.mpr hjne
    have hfil :
        (((js.map strToLower).dedup).filter
            (fun s => ((rs.map strToLower).dedup).contains s)).length
          ≤ (js.map strToLower).dedup.length := List.length_filter_le _ _
    have h2 : (0:ℚ) < ((js.map strToLower).dedup.length : ℚ) := by exact_mod_cast hlen
    have h1 :
        ((((js.map strToLower).dedup).filter
            (fun s => ((rs.map strToLower).dedup).contains s)).length : ℚ)
          ≤ ((js.map strToLower).dedup.length : ℚ) := by exact_mod_cast hfil
    constructor
    · positivity
    · rw [div_mul_eq_mul_div, div_le_iff h2]
      nlinarith

lemma technical_score_bounds (job : Job) (resume : Resume) :
    0 ≤ technical_score_of job resume ∧ technical_score_of job resume ≤ 100 := by
  obtain ⟨h0, h1⟩ := skill_pct_bounds (resume_skills_of resume) (job_skills_of job)
  simp only [technical_score_of, skill_triple_of]
  split_ifs with hc
  · constructor
    · exact le_min (by linarith) (by norm_num)
    · exact min_le_right _ _
  · exact ⟨h0, h1⟩

lemma experience_score_cases (ry : ℚ) (req : Nat) (lvl : String) :
    calculate_experience_score ry req lvl = 100 ∨ calculate_experience_score ry req lvl = 80
      ∨ calculate_experience_score ry req lvl = 60
      ∨ calculate_experience_score ry req lvl = 40 := by
  simp only [calculate_experience_score]
  split_ifs <;> tauto

lemma experience_score_bounds (job : Job) (resume : Resume) :
    0 ≤ experience_score_of job resume ∧ experience_score_of job resume ≤ 100 := by
  unfold experience_score_of
  rcases experience_score_cases resume.total_experience_years
      (extract_years_of_experience job.description)
      (detect_experience_level job.description) with h | h | h | h <;> rw [h] <;> norm_num

lemma raw_total_bounds (job : Job) (resume : Resume) :
    0 ≤ raw_total_of job resume ∧ raw_total_of job resume ≤ 100 := by
  obtain ⟨t0, t1⟩ := technical_score_bounds job resume
  obtain ⟨e0, e1⟩ := experience_score_bounds job resume
  unfold raw_total_of
  constructor <;> nlinarith

/-! Classification -/

lemma adjusted_classification_eq (total : ℚ) (flags : List String) :
    adjusted_classification total flags
      = (spec_classification total flags, spec_recommendation total flags) := by
  unfold adjusted_classification base_classification spec_classification spec_recommendation
  by_cases hf : flags = [] <;> by_cases h80 : 80 ≤ total <;> by_cases h65 : 65 ≤ total
    <;> by_cases h50 : 50 ≤ total <;> simp [hf, h80, h65, h50]

lemma spec_classification_mem (total : ℚ) (flags : List String) :
    spec_classification total flags = "POOR" ∨ spec_classification total flags = "FAIR"
      ∨ spec_classification total flags = "GOOD"
      ∨ spec_classification total flags = "EXCELLENT" := by
  unfold spec_classification
  split_ifs <;> simp

/-! Field equations of `rule_based_match` -/

lemma rule_total (job : Job) (resume : Resume) :
    (rule_based_match job resume).scores.total = roundTo1 (raw_total_of job resume) := rfl

lemma rule_technical (job : Job) (resume : Resume) :
    (rule_based_match job resume).scores.technical
      = roundTo1 (technical_score_of job resume) := rfl

lemma rule_experience (job : Job) (resume : Resume) :
    (rule_based_match job resume).scores.experience
      = roundTo1 (experience_score_of job resume) := rfl

lemma rule_culture (job : Job) (resume : Resume) :
    (rule_based_match job resume).scores.culture = roundTo1 80 := rfl

lemma rule_classification_eq (job : Job) (resume : Resume) :
    (rule_based_match job resume).classification
      = (adjusted_classification (raw_total_of job resume)
          (detect_red_flags job.description)).1 := rfl

lemma rule_recommendation_eq (job : Job) (resume : Resume) :
    (rule_based_match job resume).recommendation
      = (adjusted_classification (raw_total_of job resume)
          (detect_red_flags job.description)).2 := rfl

lemma rule_deal_breakers (job : Job) (resume : Resume) :
    (rule_based_match job resume).deal_breakers = detect_red_flags job.description := rfl

lemma rule_llm_analysis (job : Job) (resume : Resume) :
    (rule_based_match job resume).llm_analysis = false := rfl

lemma roundTo1_80 : roundTo1 80 = 80 := by
  rw [roundTo1, show ((80:ℚ) * 10) = ((800:ℤ):ℚ) by norm_num, round_intCast]
  norm_num

/-! Per-job decide loop -/

lemma per_job_sends_sub (sendFn : Job → String) (force : Bool) (minScore : ℚ)
    (mr : MatchDict) (jobs : List Job) (s : String)
    (hs : s ∈ (per_job_decide sendFn force minScore mr jobs).1) :
    ∃ j ∈ jobs, j.job_id = s := by
  induction jobs with
  | nil => simp [per_job_decide] at hs
  | cons x xs ih =>
    simp only [per_job_decide] at hs
    split_ifs at hs with hcond
    · rcases List.mem_cons.mp hs with h | h
      · exact ⟨x, List.mem_cons_self x xs, h.symm⟩
      · obtain ⟨j, hj, he⟩ := ih h
        exact ⟨j, List.mem_cons_of_mem _ hj, he⟩
    · obtain ⟨j, hj, he⟩ := ih hs
      exact ⟨j, List.mem_cons_of_mem _ hj, he⟩

lemma per_job_records_sub (sendFn : Job → String) (force : Bool) (minScore : ℚ)
    (mr : MatchDict) (jobs : List Job) (r : NotificationRecord)
    (hr : r ∈ (per_job_decide sendFn force minScore mr jobs).2) :
    ∃ j ∈ jobs, r.job_id = j.job_id := by
  induction jobs with
  | nil => simp [per_job_decide] at hr
  | cons x xs ih =>
    simp only [per_job_decide] at hr
    split_ifs at hr with hcond
    · rcases List.mem_cons.mp hr with h | h
      · exact ⟨x, List.mem_cons_self x xs, by rw [h]⟩
      · obtain ⟨j, hj, he⟩ := ih h
        exact ⟨j, List.mem_cons_of_mem _ hj, he⟩
    · rcases List.mem_cons.mp hr with h | h
      · exact ⟨x, List.mem_cons_self x xs, by rw [h]⟩
      · obtain ⟨j, hj, he⟩ := ih h
        exact ⟨j, List.mem_cons_of_mem _ hj, he⟩

lemma per_job_records_cover (sendFn : Job → String) (force : Bool) (minScore : ℚ)
    (mr : MatchDict) (jobs : List Job) (j : Job) (hj : j ∈ jobs) :
    ∃ r ∈ (per_job_decide sendFn force minScore mr jobs).2, r.job_id = j.job_id := by
  induction jobs with
  | nil => cases hj
  | cons x xs ih =>
    simp only [per_job_decide]
    rcases List.mem_cons.mp hj with h | h
    · subst h
      split_ifs with hcond
      · exact ⟨_, List.mem_cons_self _ _, rfl⟩
      · exact ⟨_, List.mem_cons_self _ _, rfl⟩
    · obtain ⟨r, hr, he⟩ := ih h
      split_ifs with hcond
      · exact ⟨r, List.mem_cons_of_mem _ hr, he⟩
      · exact ⟨r, List.mem_cons_of_mem _ hr, he⟩

lemma per_job_sends_force (sendFn : Job → String) (minScore : ℚ)
    (mr : MatchDict) (jobs : List Job) (j : Job) (hj : j ∈ jobs) :
    j.job_id ∈ (per_job_decide sendFn true minScore mr jobs).1 := by
  induction jobs with
  | nil => cases hj
  | cons x xs ih =>
    simp only [per_job_decide]
    rw [if_pos (Or.inr trivial)]
    rcases List.mem_cons.mp hj with h | h
    · subst h
      exact List.mem_cons_self _ _
    · exact List.mem_cons_of_mem _ (ih h)

/-! `run_model` on the main (non-early-return) path -/

lemma run_model_main (sendFn : Job → String) (notified : List String) (force : Bool)
    (minScore : ℚ) (outcome : LLMOutcome) (resume : Resume) (scraped : List Job)
    (h1 : scraped ≠ [])
    (h2 : (if force then scraped else (batch_pre_filter_jobs scraped).1) ≠ []) :
    run_model sendFn notified force minScore outcome resume scraped =
      { passed_jobs := if force then scraped else (batch_pre_filter_jobs scraped).1
        new_jobs := scraped.filter (fun j => !(notified.contains j.job_id) || force)
        already_notified :=
          (scraped.filter (fun j => notified.contains j.job_id && !force)).length
        batch_input :=
          if (scraped.filter (fun j => !(notified.contains j.job_id) || force)).isEmpty
          then []
          else scraped.filter (fun j => !(notified.contains j.job_id) || force)
        sends :=
          (per_job_decide sendFn force minScore
            (if (scraped.filter (fun j => !(notified.contains j.job_id) || force)).isEmpty
             then emptyDict
             else batch_match_jobs outcome
               (scraped.filter (fun j => !(notified.contains j.job_id) || force)) resume)
            (scraped.filter (fun j => !(notified.contains j.job_id) || force))).1
        notifications_inserted :=
          (per_job_decide sendFn force minScore
            (if (scraped.filter (fun j => !(notified.contains j.job_id) || force)).isEmpty
             then emptyDict
             else batch_match_jobs outcome
               (scraped.filter (fun j => !(notified.contains j.job_id) || force)) resume)
            (scraped.filter (fun j => !(notified.contains j.job_id) || force))).2 } := by
  unfold run_model
  rw [if_neg h1]
  dsimp only
  rw [if_neg h2]

/-! Pre-filter characterization -/

lemma check_keyword_snd (text : String) (keywords : List String) (h : text ≠ "") :
    (check_keyword_match text keywords).2
      = keywords.filter (fun k => strContains (strToLower text) (strToLower k)) := by
  unfold check_keyword_match
  rw [if_neg h]

lemma check_keyword_iff (text : String) (keywords : List String)
    (hkw : ∀ k ∈ keywords, strContains "" (strToLower k) = false) :
    (check_keyword_match text keywords).1 = true
      ↔ ∃ k ∈ keywords, strContains (strToLower text) (strToLower k) = true := by
  unfold check_keyword_match
  by_cases h : text = ""
  · rw [if_pos h]
    subst h
    constructor
    · intro hf
      simp at hf
    · rintro ⟨k, hk, hc⟩
      rw [show strToLower "" = "" by decide, hkw k hk] at hc
      cases hc
  · rw [if_neg h]
    dsimp only
    rw [decide_eq_true_eq]
    constructor
    · intro hp
      obtain ⟨k, hk⟩ := List.length_pos_iff_exists_mem.mp hp
      obtain ⟨hmem, hprop⟩ := List.mem_filter.mp hk
      exact ⟨k, hmem, hprop⟩
    · rintro ⟨k, hk, hc⟩
      exact List.length_pos_iff_exists_mem.mpr ⟨k, List.mem_filter.mpr ⟨hk, hc⟩⟩

/-- The rule-based matcher's output always satisfies the score/
classification invariant (shared by several claims below). -/
lemma score_invariant_rule (job : Job) (resume : Resume) :
    score_invariant (rule_based_match job resume) := by
  have hts : spec_total (technical_score_of job resume) (experience_score_of job resume) 80
      = raw_total_of job resume := by
    unfold spec_total raw_total_of
    ring
  refine ⟨technical_score_of job resume, experience_score_of job resume, 80,
    rule_technical job resume, rule_experience job resume, rule_culture job resume,
    ?_, ?_, ?_⟩
  · rw [rule_total, hts]
  · rw [rule_classification_eq, adjusted_classification_eq, hts, rule_deal_breakers]
  · rw [rule_recommendation_eq, adjusted_classification_eq, hts, rule_deal_breakers]

/-! ### Claim theorems -/

/-- Claim C1: the rule-based matcher is total — for every job and
resume (including an empty description and a zero-skill resume, which
the witness instantiates) it returns a record whose total score lies in
[0,100] and whose classification is one of POOR/FAIR/GOOD/EXCELLENT;
in the batch form an internal exception for a single job (a failing
matcher) is caught and replaced by the all-50 fallback record carrying
the error message in `fallback_reason`, and the batch always yields an
entry for every input job, so it is never aborted. -/
theorem claim_c1_rule_matcher_total_and_batch_fallback :
    (∀ (job : Job) (resume : Resume),
      (0 ≤ (rule_based_match job resume).scores.total
        ∧ (rule_based_match job resume).scores.total ≤ 100)
      ∧ ((rule_based_match job resume).classification = "POOR"
        ∨ (rule_based_match job resume).classification = "FAIR"
        ∨ (rule_based_match job resume).classification = "GOOD"
        ∨ (rule_based_match job resume).classification = "EXCELLENT"))
    ∧ (∀ (matchFn : Job → Resume → Except String MatchResult) (jobs : List Job)
        (resume : Resume) (job : Job), job ∈ jobs →
        (batch_rule_based_match_with matchFn jobs resume job.job_id).isSome)
    ∧ (∀ (matchFn : Job → Resume → Except String MatchResult) (jobs : List Job)
        (resume : Resume) (job : Job) (e : String),
        (jobs.map Job.job_id).Nodup → job ∈ jobs → matchFn job resume = Except.error e →
        batch_rule_based_match_with matchFn jobs resume job.job_id
            = some (batch_error_fallback job e)
          ∧ (batch_error_fallback job e).scores.technical = 50
          ∧ (batch_error_fallback job e).scores.experience = 50
          ∧ (batch_error_fallback job e).scores.culture = 50
          ∧ (batch_error_fallback job e).scores.total = 50
          ∧ (batch_error_fallback job e).fallback_reason
              = some ("Rule-based analysis error: " ++ e.take 50)) := by
  refine ⟨?_, ?_, ?_⟩
  · intro job resume
    constructor
    · obtain ⟨h0, h1⟩ := raw_total_bounds job resume
      rw [rule_total]
      exact roundTo1_bounds _ h0 h1
    · have hcls : (rule_based_match job resume).classification
          = spec_classification (raw_total_of job resume)
              (detect_red_flags job.description) := by
        rw [rule_classification_eq, adjusted_classification_eq]
      rw [hcls]
      exact spec_classification_mem _ _
  · intro matchFn jobs resume job hj
    unfold batch_rule_based_match_with
    exact foldl_dinsert_isSome_mem
      (fun job => match matchFn job resume with
        | Except.ok m => m
        | Except.error e => batch_error_fallback job e) jobs emptyDict job hj
  · intro matchFn jobs resume job e hnd hj herr
    refine ⟨?_, rfl, rfl, rfl, rfl, rfl⟩
    unfold batch_rule_based_match_with
    have h := foldl_dinsert_mem_eq
      (fun job => match matchFn job resume with
        | Except.ok m => m
        | Except.error e => batch_error_fallback job e) jobs emptyDict job hj hnd
    dsimp only at h
    rw [herr] at h
    exact h

/-- Witness for C1 at the edge-case inputs: the empty-description job
against the zero-skill resume, and a one-job batch whose matcher
fails. -/
theorem claim_c1_witness :
    (0 ≤ (rule_based_match jobEmpty resume0).scores.total
      ∧ (rule_based_match jobEmpty resume0).scores.total ≤ 100)
    ∧ batch_rule_based_match_with (fun _ _ => Except.error "boom") [jobEmpty] resume0
        jobEmpty.job_id = some (batch_error_fallback jobEmpty "boom") :=
  ⟨(claim_c1_rule_matcher_total_and_batch_fallback.1 jobEmpty resume0).1,
   (claim_c1_rule_matcher_total_and_batch_fallback.2.2 (fun _ _ => Except.error "boom")
      [jobEmpty] resume0 jobEmpty "boom" (by decide) (by decide) rfl).1⟩

/-- Claim C5: the matcher's total score is the weighted sum
0.6×technical + 0.3×experience + 0.1×culture of its computed
sub-scores with culture fixed at 80 (the stored total being that sum
rounded to one decimal, like every stored sub-score), and
classification/recommendation follow the ≥80/≥65/≥50 thresholds on
that total with the red-flag downgrade EXCELLENT→GOOD and forced
CONSIDER. -/
theorem claim_c5_score_formula_and_thresholds :
    ∀ (job : Job) (resume : Resume),
      (rule_based_match job resume).scores.total
          = roundTo1 (spec_total (technical_score_of job resume)
              (experience_score_of job resume) 80)
      ∧ (rule_based_match job resume).scores.culture = 80
      ∧ (rule_based_match job resume).classification
          = spec_classification
              (spec_total (technical_score_of job resume)
                (experience_score_of job resume) 80)
              (detect_red_flags job.description)
      ∧ (rule_based_match job resume).recommendation
          = spec_recommendation
              (spec_total (technical_score_of job resume)
                (experience_score_of job resume) 80)
              (detect_red_flags job.description) := by
  intro job resume
  have hts : spec_total (technical_score_of job resume) (experience_score_of job resume) 80
      = raw_total_of job resume := by
    unfold spec_total raw_total_of
    ring
  refine ⟨?_, ?_, ?_, ?_⟩
  · rw [rule_total, hts]
  · rw [rule_culture, roundTo1_80]
  · rw [rule_classification_eq, adjusted_classification_eq, hts]
  · rw [rule_recommendation_eq, adjusted_classification_eq, hts]

/-- Claim C8 counterexample: a schema-valid reasoning-service result
with sub-scores 90/90/90 but total 17 and classification EXCELLENT is
stored verbatim by the batch matcher (`llm_analysis = true`, no
validation), so the pipeline emits a MatchResult violating the
total/classification invariant. -/
theorem claim_c8_counterexample :
    batch_match_jobs (LLMOutcome.ok [llmBadResult]) [jobPass] resume0 "pass-1"
        = some (llm_result_to_match llmBadResult "pass-1")
    ∧ ¬ score_invariant (llm_result_to_match llmBadResult "pass-1") := by
  constructor
  · decide
  · rintro ⟨t, e, c, ht, he, hc, htot, hcls, hrec⟩
    have ht' : (90:ℚ) = roundTo1 t := ht
    have he' : (90:ℚ) = roundTo1 e := he
    have hc' : (90:ℚ) = roundTo1 c := hc
    have htot' : (17:ℚ) = roundTo1 (spec_total t e c) := htot
    have h1 := roundTo1_le_add t
    have h2 := roundTo1_le_add e
    have h3 := roundTo1_le_add c
    have h4 := sub_lt_roundTo1 (spec_total t e c)
    rw [← ht'] at h1
    rw [← he'] at h2
    rw [← hc'] at h3
    rw [← htot'] at h4
    unfold spec_total at h4
    linarith

/-- Claim C8 (amended): every MatchResult the batch matcher produces on
the rule-based path (`llm_analysis = false` — full fallback on
transport/parse failure, or per-job backfill) satisfies the invariant
that its total is the fixed weighted combination of its sub-scores,
rounded, and its classification/recommendation follow the fixed
thresholds with deal-breaker adjustment; results taken from the
reasoning service (`llm_analysis = true`) are stored without
validation, so the invariant is not enforced for them. -/
theorem claim_c8_rule_path_invariant :
    ∀ (outcome : LLMOutcome) (jobs : List Job) (resume : Resume) (k : String)
      (m : MatchResult),
      batch_match_jobs outcome jobs resume k = some m → m.llm_analysis = false →
      score_invariant m := by
  intro outcome jobs resume k m hm hfalse
  by_cases hne : jobs = []
  · rw [hne] at hm
    unfold batch_match_jobs at hm
    simp [emptyDict] at hm
  · unfold batch_match_jobs at hm
    rw [if_neg hne] at hm
    cases outcome with
    | failure msg =>
      unfold batch_rule_based_match batch_rule_based_match_with at hm
      rcases foldl_dinsert_entry _ jobs emptyDict k m hm with ⟨a, _, hma⟩ | habs
      · rw [hma]
        exact score_invariant_rule a resume
      · simp [emptyDict] at habs
    | ok results =>
      dsimp only at hm
      rcases foldl_dinsert_entry _ _ (llm_results_map results) k m hm with ⟨a, _, hma⟩ | hllm
      · rw [hma]
        exact score_invariant_rule a resume
      · have := llm_results_map_llm results k m hllm
        rw [hfalse] at this
        cases this

/-- Witness for C8 (amended): a failed reasoning call on a one-job
batch yields the rule-based record, which satisfies the invariant. -/
theorem claim_c8_witness :
    batch_match_jobs (LLMOutcome.failure "down") [jobPass] resume0 "pass-1"
        = some (rule_based_match jobPass resume0)
    ∧ score_invariant (rule_based_match jobPass resume0) := by
  have hb : batch_match_jobs (LLMOutcome.failure "down") [jobPass] resume0 "pass-1"
      = some (rule_based_match jobPass resume0) := rfl
  exact ⟨hb, claim_c8_rule_path_invariant (LLMOutcome.failure "down") [jobPass] resume0
    "pass-1" (rule_based_match jobPass resume0) hb (rule_llm_analysis jobPass resume0)⟩

/-- Claim C2: for every non-empty job list and resume the batch matcher
returns an entry for every input job_id; a job_id absent from the
reasoning-service response map is individually backfilled with the
rule-based result (which has `llm_analysis = false`), and a
transport/parse failure makes the whole batch the per-job rule-based
map. -/
theorem claim_c2_batch_match_completeness :
    ∀ (outcome : LLMOutcome) (jobs : List Job) (resume : Resume), jobs ≠ [] →
      (∀ job ∈ jobs, (batch_match_jobs outcome jobs resume job.job_id).isSome)
      ∧ (∀ (results : List LLMResult) (job : Job), outcome = LLMOutcome.ok results →
          (jobs.map Job.job_id).Nodup → job ∈ jobs →
          llm_results_map results job.job_id = none →
          batch_match_jobs outcome jobs resume job.job_id
              = some (rule_based_match job resume)
            ∧ (rule_based_match job resume).llm_analysis = false)
      ∧ (∀ msg, outcome = LLMOutcome.failure msg →
          batch_match_jobs outcome jobs resume = batch_rule_based_match jobs resume) := by
  intro outcome jobs resume hne
  refine ⟨?_, ?_, ?_⟩
  · intro job hj
    unfold batch_match_jobs
    rw [if_neg hne]
    cases outcome with
    | failure msg =>
      unfold batch_rule_based_match batch_rule_based_match_with
      exact foldl_dinsert_isSome_mem _ jobs emptyDict job hj
    | ok results =>
      dsimp only
      by_cases hsome : (llm_results_map results job.job_id).isSome
      · exact foldl_dinsert_isSome_mono _ _ _ _ hsome
      · have hnone : (llm_results_map results job.job_id).isNone :=
          Option.not_isSome_iff_eq_none.mp hsome ▸ rfl
        have hmem : job ∈ jobs.filter (fun j => (llm_results_map results j.job_id).isNone) :=
          List.mem_filter.mpr ⟨hj, hnone⟩
        exact foldl_dinsert_isSome_mem _ _ _ job hmem
  · intro results job hout hnd hj hmiss
    subst hout
    refine ⟨?_, rule_llm_analysis job resume⟩
    unfold batch_match_jobs
    rw [if_neg hne]
    dsimp only
    have hnone : (llm_results_map results job.job_id).isNone := by
      rw [hmiss]
      rfl
    have hmem : job ∈ jobs.filter (fun j => (llm_results_map results j.job_id).isNone) :=
      List.mem_filter.mpr ⟨hj, hnone⟩
    have hndf : ((jobs.filter
        (fun j => (llm_results_map results j.job_id).isNone)).map Job.job_id).Nodup :=
      ((List.filter_sublist jobs).map Job.job_id).nodup hnd
    exact foldl_dinsert_mem_eq _ _ _ job hmem hndf
  · intro msg hout
    subst hout
    unfold batch_match_jobs
    rw [if_neg hne]

/-- Witness for C2: a one-job batch with an empty reasoning-service
results array — the job is backfilled from the rule-based matcher. -/
theorem claim_c2_witness :
    (batch_match_jobs (LLMOutcome.ok []) [jobPass] resume0 jobPass.job_id).isSome
    ∧ batch_match_jobs (LLMOutcome.ok []) [jobPass] resume0 jobPass.job_id
        = some (rule_based_match jobPass resume0) := by
  have h := claim_c2_batch_match_completeness (LLMOutcome.ok []) [jobPass] resume0 (by decide)
  exact ⟨h.1 jobPass (by decide),
    (h.2.1 [] jobPass rfl (by decide) (by decide) (by decide)).1⟩

/-- Claim C3: with force-notify disabled, a scraped job whose job_id
already has a NotificationRecord is excluded from the new-jobs set by
the dedup check (provided the run reaches it, i.e. some scraped job
passed the pre-filter), is counted in the already-notified tally, no
notification is sent for it, and no further NotificationRecord is
written for its job_id. -/
theorem claim_c3_no_duplicate_notification :
    ∀ (sendFn : Job → String) (notified : List String) (minScore : ℚ)
      (outcome : LLMOutcome) (resume : Resume) (scraped : List Job) (job : Job),
      (∃ j ∈ scraped, (pre_filter_job j).passed = true) →
      notified.contains job.job_id = true →
      job ∉ (run_model sendFn notified false minScore outcome resume scraped).new_jobs
      ∧ (run_model sendFn notified false minScore outcome resume scraped).already_notified
          = (scraped.filter (fun j => notified.contains j.job_id)).length
      ∧ (job ∈ scraped →
          0 < (run_model sendFn notified false minScore outcome resume scraped).already_notified)
      ∧ job.job_id ∉ (run_model sendFn notified false minScore outcome resume scraped).sends
      ∧ (∀ r ∈ (run_model sendFn notified false minScore outcome resume
            scraped).notifications_inserted, r.job_id ≠ job.job_id) := by
  intro sendFn notified minScore outcome resume scraped job hpass hnot
  obtain ⟨jp, hjp, hjpass⟩ := hpass
  have h1 : scraped ≠ [] := List.ne_nil_of_mem hjp
  have h2 : (if (false : Bool) then scraped else (batch_pre_filter_jobs scraped).1) ≠ [] := by
    simp only [Bool.false_eq_true, if_false]
    unfold batch_pre_filter_jobs
    exact List.ne_nil_of_mem (List.mem_filter.mpr ⟨hjp, hjpass⟩)
  rw [run_model_main sendFn notified false minScore outcome resume scraped h1 h2]
  refine ⟨?_, ?_, ?_, ?_, ?_⟩
  · show job ∉ scraped.filter (fun j => !(notified.contains j.job_id) || false)
    intro hmem
    have hp := (List.mem_filter.mp hmem).2
    rw [hnot] at hp
    simp at hp
  · show (scraped.filter (fun j => notified.contains j.job_id && !false)).length
        = (scraped.filter (fun j => notified.contains j.job_id)).length
    simp
  · intro hm
    show 0 < (scraped.filter (fun j => notified.contains j.job_id && !false)).length
    have hjm : job ∈ scraped.filter (fun j => notified.contains j.job_id && !false) :=
      List.mem_filter.mpr ⟨hm, by rw [hnot]; decide⟩
    exact List.length_pos.mpr (List.ne_nil_of_mem hjm)
  · intro hs
    obtain ⟨j, hj, he⟩ := per_job_sends_sub _ _ _ _ _ _ hs
    have hp := (List.mem_filter.mp hj).2
    rw [he, hnot] at hp
    simp at hp
  · intro r hr he
    obtain ⟨j, hj, hje⟩ := per_job_records_sub _ _ _ _ _ _ hr
    have hp := (List.mem_filter.mp hj).2
    rw [← hje, he, hnot] at hp
    simp at hp

/-- Witness for C3: the already-notified job `jobPass` is dropped by
the dedup check of a run in which `jobSDE` passes the pre-filter. -/
theorem claim_c3_witness :
    jobPass ∉ (run_model (fun _ => "success") ["pass-1"] false 50
        (LLMOutcome.failure "down") resume0 [jobPass, jobSDE]).new_jobs
    ∧ jobPass.job_id ∉ (run_model (fun _ => "success") ["pass-1"] false 50
        (LLMOutcome.failure "down") resume0 [jobPass, jobSDE]).sends
    ∧ 0 < (run_model (fun _ => "success") ["pass-1"] false 50
        (LLMOutcome.failure "down") resume0 [jobPass, jobSDE]).already_notified := by
  have h := claim_c3_no_duplicate_notification (fun _ => "success") ["pass-1"] 50
    (LLMOutcome.failure "down") resume0 [jobPass, jobSDE] jobPass (by decide) (by decide)
  exact ⟨h.1, h.2.2.2.1, h.2.2.1 (by decide)⟩

/-- Claim C4 (code evaluated at the failing input): the pre-filter
rejects `jobReject`, yet the run hands it to the batch matcher, because
new.py line 230 builds `truly_new_jobs` from `scraped_jobs` instead of
`passed_jobs`.  The third conjunct shows the pre-filter did run and
passed only `jobPass`. -/
theorem claim_c4_batch_input_includes_rejected :
    (pre_filter_job jobReject).passed = false
    ∧ jobReject ∈ (run_model (fun _ => "success") [] false 50
        (LLMOutcome.failure "down") resume0 [jobReject, jobPass]).batch_input
    ∧ (run_model (fun _ => "success") [] false 50
        (LLMOutcome.failure "down") resume0 [jobReject, jobPass]).passed_jobs
        = [jobPass] := by
  decide

/-- Claim C6: the pre-filter passes a job exactly when its title
contains one of the fixed title phrases or at least MIN_SKILL_MATCHES
(= 3) required-skill keywords occur in title+description; the "Senior
Data Engineer" job whose text contains python, sql and aws passes with
a skill count meeting the threshold (its title also substring-matches
"data engineer"). -/
theorem claim_c6_prefilter_pass_condition :
    (∀ job : Job,
      (pre_filter_job job).passed = true
        ↔ ((∃ k ∈ JOB_TITLE_KEYWORDS,
              strContains (strToLower job.job_title) (strToLower k) = true)
            ∨ MIN_SKILL_MATCHES ≤ (REQUIRED_SKILLS.filter (fun k =>
                strContains (strToLower (job.job_title ++ " " ++ job.description))
                  (strToLower k))).length))
    ∧ (pre_filter_job jobSDE).passed = true
    ∧ MIN_SKILL_MATCHES ≤ (pre_filter_job jobSDE).skill_count := by
  refine ⟨?_, by decide, by decide⟩
  intro job
  unfold pre_filter_job
  dsimp only
  rw [Bool.or_eq_true]
  have hco : (job.job_title ++ " " ++ job.description) ≠ "" := by
    intro hx
    have hlen := congrArg String.length hx
    rw [String.length_append, String.length_append,
      show (" " : String).length = 1 from rfl,
      show ("" : String).length = 0 from rfl] at hlen
    omega
  constructor
  · intro hp
    rcases hp with htm | hsk
    · exact Or.inl ((check_keyword_iff job.job_title JOB_TITLE_KEYWORDS (by decide)).mp htm)
    · right
      rw [decide_eq_true_eq] at hsk
      rwa [check_keyword_snd _ _ hco] at hsk
  · intro hp
    rcases hp with htm | hsk
    · exact Or.inl ((check_keyword_iff job.job_title JOB_TITLE_KEYWORDS (by decide)).mpr htm)
    · right
      rw [decide_eq_true_eq]
      rwa [check_keyword_snd _ _ hco]

/-- Claim C7: the job_id is a pure function of the canonicalized URL —
any two URLs whose parses agree on scheme, host and path (in
particular, URLs differing only in query-string tracking parameters)
get the same job_id, for every digest function; the derivation is a
total function. -/
theorem claim_c7_job_id_canonical :
    ∀ (md5hex : String → String) (u1 u2 : String),
      (urlparse u1).scheme = (urlparse u2).scheme →
      (urlparse u1).netloc = (urlparse u2).netloc →
      (urlparse u1).path = (urlparse u2).path →
      extract_linkedin_job_id_from_url md5hex u1
        = extract_linkedin_job_id_from_url md5hex u2 := by
  intro md5hex u1 u2 hs hn hp
  unfold extract_linkedin_job_id_from_url clean_url_of
  dsimp only
  rw [hs, hn, hp]

/-- Witness for C7: two concrete LinkedIn URLs differing only in
tracking query parameters hash identically. -/
theorem claim_c7_witness :
    (urlparse urlA).scheme = (urlparse urlB).scheme
    ∧ (urlparse urlA).netloc = (urlparse urlB).netloc
    ∧ (urlparse urlA).path = (urlparse urlB).path
    ∧ (urlparse urlA).query ≠ (urlparse urlB).query
    ∧ extract_linkedin_job_id_from_url id urlA = extract_linkedin_job_id_from_url id urlB :=
  ⟨by decide, by decide, by decide, by decide,
   claim_c7_job_id_canonical id urlA urlB (by decide) (by decide) (by decide)⟩

/-- Claim C9 counterexample: on `None` input, experience-year
extraction does not return 0 — line 127 calls `text.lower()` and
raises `AttributeError`. -/
theorem claim_c9_counterexample :
    extract_years_of_experience_py none ≠ Except.ok 0 := by
  simp [extract_years_of_experience_py]

/-- Claim C9 (amended): for empty text, skill extraction returns the
empty list and experience-year extraction returns 0 without raising;
for `None`, skill extraction still returns the empty list (the
`if not text` guard) but experience-year extraction raises; for any
text, experience-year extraction returns the maximum of the integers
matched by the four year patterns, or 0 when none match. -/
theorem claim_c9_extractor_edge_cases :
    extract_skills_from_text_py none ALL_SKILLS = []
    ∧ extract_skills_from_text_py (some "") ALL_SKILLS = []
    ∧ extract_years_of_experience "" = 0
    ∧ (∃ msg, extract_years_of_experience_py none = Except.error msg)
    ∧ (∀ text : String,
        (year_matches text = [] → extract_years_of_experience text = 0)
        ∧ (∀ y ∈ year_matches text, y ≤ extract_years_of_experience text)
        ∧ (year_matches text ≠ [] →
            extract_years_of_experience text ∈ year_matches text)) := by
  refine ⟨rfl, by decide, by decide, ⟨_, rfl⟩, ?_⟩
  intro text
  refine ⟨?_, ?_, ?_⟩
  · intro h
    unfold extract_years_of_experience
    rw [h]
  · intro y hy
    unfold extract_years_of_experience
    cases hm : year_matches text with
    | nil =>
      rw [hm] at hy
      cases hy
    | cons a as =>
      rw [hm] at hy
      rcases List.mem_cons.mp hy with h | h
      · subst h
        exact le_foldl_max as y
      · exact foldl_max_le_of_mem as a y h
  · intro h
    unfold extract_years_of_experience
    cases hm : year_matches text with
    | nil => exact absurd hm h
    | cons a as =>
      exact mem_foldl_max as a

/-- Witness for C9 at "3-5 years": the patterns capture [5, 3] and the
extractor returns their maximum, 5. -/
theorem claim_c9_witness :
    year_matches "3-5 years" ≠ []
    ∧ extract_years_of_experience "3-5 years" ∈ year_matches "3-5 years"
    ∧ ∀ y ∈ year_matches "3-5 years", y ≤ extract_years_of_experience "3-5 years" := by
  have h := claim_c9_extractor_edge_cases.2.2.2.2 "3-5 years"
  exact ⟨by decide, h.2.2 (by decide), h.2.1⟩

/-- Claim C10: with force-notify enabled the dedup check is bypassed
too — a scraped job whose job_id is already notified is still placed in
the new-jobs set, handed to the batch matcher, sent, and a further
NotificationRecord insert is attempted; the pre-filter is bypassed as
well (`passed_jobs` is the whole scrape). -/
theorem claim_c10_force_notify_bypasses_dedup :
    ∀ (sendFn : Job → String) (notified : List String) (minScore : ℚ)
      (outcome : LLMOutcome) (resume : Resume) (scraped : List Job) (job : Job),
      job ∈ scraped → notified.contains job.job_id = true →
      (run_model sendFn notified true minScore outcome resume scraped).passed_jobs = scraped
      ∧ job ∈ (run_model sendFn notified true minScore outcome resume scraped).new_jobs
      ∧ job ∈ (run_model sendFn notified true minScore outcome resume scraped).batch_input
      ∧ job.job_id ∈ (run_model sendFn notified true minScore outcome resume scraped).sends
      ∧ (∃ r ∈ (run_model sendFn notified true minScore outcome resume
            scraped).notifications_inserted, r.job_id = job.job_id) := by
  intro sendFn notified minScore outcome resume scraped job hmem hnot
  have h1 : scraped ≠ [] := List.ne_nil_of_mem hmem
  have h2 : (if (true : Bool) then scraped else (batch_pre_filter_jobs scraped).1) ≠ [] := by
    simpa using h1
  rw [run_model_main sendFn notified true minScore outcome resume scraped h1 h2]
  have hfil : scraped.filter (fun j => !(notified.contains j.job_id) || true) = scraped := by
    simp
  have hmem' : job ∈ scraped.filter (fun j => !(notified.contains j.job_id) || true) := by
    rw [hfil]
    exact hmem
  have hni : (scraped.filter (fun j => !(notified.contains j.job_id) || true)).isEmpty
      = false := by
    rw [hfil]
    cases scraped with
    | nil => exact absurd rfl h1
    | cons a l => rfl
  refine ⟨rfl, hmem', ?_, ?_, ?_⟩
  · show job ∈ (if (scraped.filter (fun j => !(notified.contains j.job_id) || true)).isEmpty
        then ([] : List Job)
        else scraped.filter (fun j => !(notified.contains j.job_id) || true))
    rw [hni, hfil]
    simpa using hmem
  · exact per_job_sends_force _ _ _ _ job hmem'
  · exact per_job_records_cover _ _ _ _ _ job hmem'

/-- Witness for C10: the already-notified `jobPass` is re-surfaced by a
force-notify run. -/
theorem claim_c10_witness :
    jobPass ∈ (run_model (fun _ => "success") ["pass-1"] true 50
        (LLMOutcome.failure "down") resume0 [jobPass]).new_jobs
    ∧ jobPass.job_id ∈ (run_model (fun _ => "success") ["pass-1"] true 50
        (LLMOutcome.failure "down") resume0 [jobPass]).sends := by
  have h := claim_c10_force_notify_bypasses_dedup (fun _ => "success") ["pass-1"] 50
    (LLMOutcome.failure "down") resume0 [jobPass] jobPass (by decide) (by decide)
  exact ⟨h.2.1, h.2.2.2.1⟩

end JobPipeline
